import Mathlib

/-!
Verification of the AzureAiHandler provider adapter (Roo-Code fork,
src/api/providers/azure-ai.ts and its sibling revision in the repository,
referred to below as the inference revision) against its specification.

The adapter's pure logic is shallowly embedded: the createMessage read loop,
the catch-block error classification, deployment resolution, constructor
validation and completePrompt response extraction.  The platform JSON.parse
is external to the repository and is abstracted as a `parse` argument of
type `String → Option ChatData`; `none` models a parse failure (a thrown
SyntaxError) or a payload whose dynamic field access fails.
-/

namespace AzureAi

/-- A normalized streamed output chunk, from ApiStream: a text delta or a
usage report with input and output token counts. -/
inductive StreamChunk where
  | text (text : String)
  | usage (inputTokens outputTokens : Nat)
deriving DecidableEq

/-- The usage object of a parsed payload; prompt_tokens and completion_tokens
may each be absent (the code defaults them with a JavaScript or-zero). -/
structure UsageData where
  prompt_tokens : Option Nat
  completion_tokens : Option Nat
deriving DecidableEq

/-- The delta object of a parsed payload; its content field may be absent. -/
structure Delta where
  content : Option String
deriving DecidableEq

/-- One element of the choices array; its delta field may be absent. -/
structure Choice where
  delta : Option Delta
deriving DecidableEq

/-- The JSON payload shape the read loop inspects: an optional choices array
(indexing a missing array raises a TypeError, which the loop swallows) and an
optional usage object. -/
structure ChatData where
  choices : Option (List Choice)
  usage : Option UsageData
deriving DecidableEq

/-- JavaScript String.replace with a string pattern replaces only the first
occurrence; char-list implementation of that first-occurrence replacement. -/
def replaceFirstChars (pat repl : List Char) : List Char → List Char
  | [] => []
  | c :: cs =>
    if pat.isPrefixOf (c :: cs) then repl ++ (c :: cs).drop pat.length
    else c :: replaceFirstChars pat repl cs

/-- String form of first-occurrence replacement, as used by
chunk.toString().replace("data: ", ""). -/
def replaceFirst (s pat repl : String) : String :=
  String.mk (replaceFirstChars pat.data repl.data s.data)

/-- The raw read the loop compares against for end of stream. -/
def sentinelRead : String := "data: [DONE]"

/-- Translated from the createMessage loop body (azure-ai.ts lines 80 to 101):
JSON.parse(chunk.toString().replace("data: ", "")) then data.choices[0]?.delta;
a missing choices field makes the indexing raise, the catch swallows it and the
whole frame, usage included, is skipped; a truthy delta.content yields a text
chunk; a truthy data.usage yields a usage chunk with or-zero token defaults. -/
def decodeFrame (parse : String → Option ChatData) (raw : String) :
    List StreamChunk :=
  match parse (replaceFirst raw "data: " "") with
  | none => []
  | some data =>
    match data.choices with
    | none => []
    | some choices =>
      (match (choices.head?.bind Choice.delta).bind Delta.content with
       | some t => if t = "" then [] else [StreamChunk.text t]
       | none => []) ++
      (match data.usage with
       | some u =>
         [StreamChunk.usage (u.prompt_tokens.getD 0) (u.completion_tokens.getD 0)]
       | none => [])

/-- Translated from the createMessage read loop (azure-ai.ts lines 75 to 102):
each transport read is handled as one frame; a read equal to the sentinel ends
the sequence at once (a return, not an error) and later reads are never
touched; every other read goes through decodeFrame. -/
def decodeReads (parse : String → Option ChatData) :
    List String → List StreamChunk
  | [] => []
  | r :: rs =>
    if r = sentinelRead then []
    else decodeFrame parse r ++ decodeReads parse rs

/-- The delta content one frame carries, as the loop extracts it: the parsed
payload's choices[0]?.delta?.content when it is present and truthy. -/
def frameContentOpt (parse : String → Option ChatData) (raw : String) :
    Option String :=
  match parse (replaceFirst raw "data: " "") with
  | none => none
  | some data =>
    match data.choices with
    | none => none
    | some choices =>
      match (choices.head?.bind Choice.delta).bind Delta.content with
      | some t => if t = "" then none else some t
      | none => none

/-- The usage counts one frame carries, as the loop extracts them: present
exactly when the payload parses, its choices field is accessible and its usage
field is truthy. -/
def frameUsagePair (parse : String → Option ChatData) (raw : String) :
    Option (Nat × Nat) :=
  match parse (replaceFirst raw "data: " "") with
  | none => none
  | some data =>
    match data.choices with
    | none => none
    | some _ =>
      match data.usage with
      | some u => some (u.prompt_tokens.getD 0, u.completion_tokens.getD 0)
      | none => none

/-- Whether a chunk is a usage chunk. -/
def isUsage : StreamChunk → Bool
  | StreamChunk.usage _ _ => true
  | StreamChunk.text _ => false

/-- Concatenation of the text of all text chunks, in emission order. -/
def textConcat : List StreamChunk → String
  | [] => ""
  | StreamChunk.text t :: cs => t ++ textConcat cs
  | StreamChunk.usage _ _ :: cs => textConcat cs

/-- The delta-content field of a frame, the empty string when the frame has
none. -/
def frameContent (parse : String → Option ChatData) (raw : String) : String :=
  (frameContentOpt parse raw).getD ""

/-- Concatenation of a list of strings, in order. -/
def concatAll : List String → String
  | [] => ""
  | s :: ss => s ++ concatAll ss

/-- Splitting a byte sequence into single-character reads. -/
def explode (s : String) : List String :=
  s.data.map (fun c => String.mk [c])

/-- A concrete text payload used in the example streams below. -/
def payloadHi : String :=
  "\x7b\"choices\":[\x7b\"delta\":\x7b\"content\":\"Hi\"\x7d\x7d]\x7d"

/-- A second concrete text payload used in the example streams below. -/
def payloadWorld : String :=
  "\x7b\"choices\":[\x7b\"delta\":\x7b\"content\":\" world\"\x7d\x7d]\x7d"

/-- A concrete usage payload used in the example streams below. -/
def payloadUsage : String :=
  "\x7b\"choices\":[\x7b\"delta\":\x7b\x7d\x7d],\"usage\":\x7b\"prompt_tokens\":10,\"completion_tokens\":2\x7d\x7d"

/-- Modelled from the platform: JSON.parse (external to this repository)
restricted to the finitely many payload strings the concrete examples feed it,
each mapped to the object it denotes; every other input, in particular every
single-character fragment of these frames and every partial prefix of them,
is not valid JSON and fails to parse. -/
def exampleParse : String → Option ChatData := fun s =>
  if s = payloadHi then
    some ⟨some [⟨some ⟨some "Hi"⟩⟩], none⟩
  else if s = payloadWorld then
    some ⟨some [⟨some ⟨some " world"⟩⟩], none⟩
  else if s = payloadUsage then
    some ⟨some [⟨some ⟨none⟩⟩], some ⟨some 10, some 2⟩⟩
  else none

/-- The concrete wire frame carrying the payload of payloadHi. -/
def frameHi : String := "data: " ++ payloadHi

/-- The concrete wire frame carrying the payload of payloadWorld. -/
def frameWorld : String := "data: " ++ payloadWorld

/-- The concrete wire frame carrying the payload of payloadUsage. -/
def frameUsage : String := "data: " ++ payloadUsage

/-- JavaScript or-default on an optional string: absent and empty are falsy
and select the default. -/
def jsOrStr (o : Option String) (d : String) : String :=
  match o with
  | some s => if s = "" then d else s
  | none => d

/-- JavaScript truthiness of an optional string field: an absent field and the
empty string are falsy. -/
def strTruthy : Option String → Bool
  | none => false
  | some s => s != ""

/-- A value thrown inside createMessage or completePrompt, as the catch blocks
see it: either a JS Error instance, with the fields the blocks inspect (an
optional numeric status, the optional body.error.code and body.error.message,
and the message), or any non-Error value with whatever fields it carries. -/
inductive Thrown where
  | errObj (status : Option Nat) (bodyCode : Option String)
      (bodyMsg : Option String) (message : String)
  | rawVal (status : Option Nat) (bodyCode : Option String) (payload : String)
deriving DecidableEq

/-- The fixed rate-limit message every catch block throws on status 429. -/
def rateLimitMessage : String :=
  "Azure AI rate limit exceeded. Please try again later."

/-- The fixed content-safety message thrown on a 400 ContentFilterError. -/
def contentFilterMessage : String :=
  "Content was flagged by Azure AI content safety filters"

/-- Translated from the createMessage catch block of the revision with the
content-safety branch (azure-ai.ts lines 255 to 270, part_004 lines 118 to
133): an Error instance with status 429 becomes the fixed rate-limit Error; an
Error instance with status 400 whose body.error.code is ContentFilterError
becomes the fixed content-safety Error; any other Error instance becomes a new
Error prefixed Azure AI error and keeping the original message; a non-Error
value is rethrown as it is. -/
def rethrowCreateMessage : Thrown → Thrown
  | Thrown.errObj status bodyCode _bodyMsg message =>
    if status = some 429 then
      Thrown.errObj none none none rateLimitMessage
    else if status = some 400 ∧ bodyCode = some "ContentFilterError" then
      Thrown.errObj none none none contentFilterMessage
    else
      Thrown.errObj none none none ("Azure AI error: " ++ message)
  | Thrown.rawVal status bodyCode payload => Thrown.rawVal status bodyCode payload

/-- Translated from the completePrompt catch block of the same revision
(azure-ai.ts lines 302 to 317, part_004 lines 168 to 183): identical to the
createMessage block except for the generic prefix Azure AI completion error. -/
def rethrowCompletePrompt : Thrown → Thrown
  | Thrown.errObj status bodyCode _bodyMsg message =>
    if status = some 429 then
      Thrown.errObj none none none rateLimitMessage
    else if status = some 400 ∧ bodyCode = some "ContentFilterError" then
      Thrown.errObj none none none contentFilterMessage
    else
      Thrown.errObj none none none ("Azure AI completion error: " ++ message)
  | Thrown.rawVal status bodyCode payload => Thrown.rawVal status bodyCode payload

/-- Translated from the first-revision createMessage catch block (azure-ai.ts
lines 103 to 111): only the 429 branch and the generic wrap. -/
def rethrowBasic : Thrown → Thrown
  | Thrown.errObj status _bodyCode _bodyMsg message =>
    if status = some 429 then
      Thrown.errObj none none none rateLimitMessage
    else
      Thrown.errObj none none none ("Azure AI error: " ++ message)
  | Thrown.rawVal status bodyCode payload => Thrown.rawVal status bodyCode payload

/-- Modelled from the SDK (external to this repository): isUnexpected holds of
a response whose status is not the documented success status 200; the catch
block of the inference revision applies it to the caught value's status
field. -/
def isUnexpectedStatus (status : Option Nat) : Bool := status != some 200

/-- Translated from the createMessage catch block of the inference revision
(part_004 lines 304 to 320): an Error instance with an unexpected status 429
becomes the fixed rate-limit Error; one with an unexpected status 422 becomes
a request-validation Error carrying body.error.message when truthy, else the
message; any other Error instance is wrapped with the Azure AI error prefix;
a non-Error value is rethrown as it is. -/
def rethrowInference : Thrown → Thrown
  | Thrown.errObj status _bodyCode bodyMsg message =>
    if isUnexpectedStatus status ∧ status = some 429 then
      Thrown.errObj none none none rateLimitMessage
    else if isUnexpectedStatus status ∧ status = some 422 then
      Thrown.errObj none none none
        ("Request validation failed: " ++ jsOrStr bodyMsg message)
    else
      Thrown.errObj none none none ("Azure AI error: " ++ message)
  | Thrown.rawVal status bodyCode payload => Thrown.rawVal status bodyCode payload

/-- A deployment resolution result: name, apiVersion and the optional
Model-Mesh deployment name (shared/api.ts AzureDeploymentConfig). -/
structure AzureDeploymentConfig where
  name : String
  apiVersion : String
  modelMeshName : Option String
deriving DecidableEq

/-- A per-model deployment override supplied in the options
(azureAiDeployments entries). -/
structure DeploymentOverride where
  name : String
  apiVersion : String
  modelMeshName : Option String
deriving DecidableEq

/-- Catalog entry of azureAiModels: the ModelInfo fields the adapter logic
reads plus the default deployment (the pricing fields are omitted as no
claim touches them). -/
structure AzureModelEntry where
  maxTokens : Nat
  contextWindow : Nat
  supportsPromptCache : Bool
  defaultDeployment : AzureDeploymentConfig
deriving DecidableEq

/-- The catalog default model id (shared/api.ts addition given in
azure-ai-inference-provider-plan.md). -/
def azureAiDefaultModelId : String := "gpt-35-turbo"

/-- The static azureAiModels catalog, translated from the shared/api.ts
addition given in azure-ai-inference-provider-plan.md: three models, each
with a default deployment whose name is the model id itself and whose api
version is 2024-02-15-preview. -/
def azureAiModels : String → Option AzureModelEntry := fun id =>
  if id = "gpt-35-turbo" then
    some ⟨4096, 16385, true, ⟨"gpt-35-turbo", "2024-02-15-preview", none⟩⟩
  else if id = "gpt-4" then
    some ⟨8192, 8192, true, ⟨"gpt-4", "2024-02-15-preview", none⟩⟩
  else if id = "gpt-4-turbo" then
    some ⟨4096, 128000, true, ⟨"gpt-4-turbo", "2024-02-15-preview", none⟩⟩
  else none

/-- The ApiHandlerOptions fields the adapter reads; azureAiDeployments is kept
as an association list from model id to override. -/
structure HandlerOptions where
  apiModelId : Option String
  azureAiEndpoint : Option String
  azureAiKey : Option String
  azureAiDeployments : List (String × DeploymentOverride)
deriving DecidableEq

/-- Lookup of options.azureAiDeployments?.[id]. -/
def lookupDeployment (opts : HandlerOptions) (id : String) :
    Option DeploymentOverride :=
  (opts.azureAiDeployments.find? (fun p => p.1 == id)).map Prod.snd

/-- Translated from getModel (azure-ai.ts lines 114 to 121): a truthy
configured model id found in the catalog resolves to itself, anything else to
the default model id. -/
def getModelResolvedId (opts : HandlerOptions) : String :=
  match opts.apiModelId with
  | some mid =>
    if mid ≠ "" ∧ (azureAiModels mid).isSome then mid else azureAiDefaultModelId
  | none => azureAiDefaultModelId

/-- The catalog entry of the resolved model id.  In the source the lookup of a
resolved id cannot fail; the getD default repeats the catalog default entry to
keep the function total. -/
def getModelEntry (opts : HandlerOptions) : AzureModelEntry :=
  (azureAiModels (getModelResolvedId opts)).getD
    ⟨4096, 16385, true, ⟨"gpt-35-turbo", "2024-02-15-preview", none⟩⟩

/-- Translated from getDeploymentConfig of the catalog revision (azure-ai.ts
lines 38 to 47): each field is the per-model override field when truthy, else
the catalog default deployment field; modelMeshName comes only from the
override. -/
def getDeploymentConfigCatalog (opts : HandlerOptions) : AzureDeploymentConfig :=
  let id := getModelResolvedId opts
  let defaultConfig := (getModelEntry opts).defaultDeployment
  let ov := lookupDeployment opts id
  ⟨jsOrStr (ov.map DeploymentOverride.name) defaultConfig.name,
   jsOrStr (ov.map DeploymentOverride.apiVersion) defaultConfig.apiVersion,
   ov.bind DeploymentOverride.modelMeshName⟩

/-- The default api version constant of the inference revision (part_004
line 10). -/
def defaultApiVersionInference : String := "2024-02-15-preview"

/-- Translated from getDeploymentConfig of the inference revision (part_004
lines 31 to 54): a falsy model id resolves to the default deployment name
gpt-35-turbo; a configured id with a custom override returns the override,
with the api version defaulted when falsy; otherwise the model id itself is
the deployment name. -/
def getDeploymentConfigInference (opts : HandlerOptions) : AzureDeploymentConfig :=
  match opts.apiModelId with
  | none => ⟨"gpt-35-turbo", defaultApiVersionInference, none⟩
  | some mid =>
    if mid = "" then ⟨"gpt-35-turbo", defaultApiVersionInference, none⟩
    else
      match lookupDeployment opts mid with
      | some cfg =>
        ⟨cfg.name, jsOrStr (some cfg.apiVersion) defaultApiVersionInference,
         cfg.modelMeshName⟩
      | none => ⟨mid, defaultApiVersionInference, none⟩

/-- The constructor message for a missing endpoint. -/
def endpointRequiredMessage : String := "Azure AI endpoint is required"

/-- The constructor message for a missing key. -/
def keyRequiredMessage : String := "Azure AI key is required"

/-- Translated from the AzureAiHandler constructor (azure-ai.ts lines 21 to
36, part_004 lines 17 to 29): a falsy endpoint raises first, then a falsy key;
only then is the REST client object built (no network I/O happens in the
constructor), so validation is synchronous and eager. -/
def mkAzureAiHandler (opts : HandlerOptions) : Except String HandlerOptions :=
  if !(strTruthy opts.azureAiEndpoint) then Except.error endpointRequiredMessage
  else if !(strTruthy opts.azureAiKey) then Except.error keyRequiredMessage
  else Except.ok opts

/-- The message object of a response choice; its content may be absent. -/
structure RespMessage where
  content : Option String
deriving DecidableEq

/-- One element of a non-streaming response's choices array. -/
structure RespChoice where
  message : Option RespMessage
deriving DecidableEq

/-- The body of a non-streaming chat-completions response: the choices array
and the error body a non-success response carries. -/
structure CompletionBody where
  choices : List RespChoice
  errorBody : Option String
deriving DecidableEq

/-- A non-streaming REST response: status code and body. -/
structure RestResponse where
  status : Nat
  body : CompletionBody
deriving DecidableEq

/-- Modelled from the SDK (external to this repository): isUnexpected on a
response holds when the status is not the documented success status 200. -/
def isUnexpectedResp (r : RestResponse) : Bool := r.status != 200

/-- Translated from completePrompt's response handling (azure-ai.ts lines 123
to 146): an unexpected response throws its body error (a non-Error value);
otherwise the result is choices[0]?.message?.content or the empty string. -/
def completePromptResult (r : RestResponse) : Except (Option String) String :=
  if isUnexpectedResp r then Except.error r.body.errorBody
  else
    Except.ok
      (jsOrStr ((r.body.choices.head?.bind RespChoice.message).bind
        RespMessage.content) "")

/-- Override record used in the deployment witnesses. -/
def ovMyDeploy : DeploymentOverride := ⟨"my-deploy", "2024-06-01", none⟩

/-- Options with a catalog model id and an explicit override for it. -/
def optsOverride : HandlerOptions :=
  ⟨some "gpt-4", some "https://r.inference.azure.com", some "k",
   [("gpt-4", ovMyDeploy)]⟩

/-- Options with a catalog model id and no override. -/
def optsPlain : HandlerOptions :=
  ⟨some "gpt-4", some "https://r.inference.azure.com", some "k", []⟩

/-- Options with no model id configured at all. -/
def optsNoModel : HandlerOptions :=
  ⟨none, some "https://r.inference.azure.com", some "k", []⟩

/-- Options with a non-catalog model id and an override for it. -/
def optsCustom : HandlerOptions :=
  ⟨some "custom-model", some "https://r.inference.azure.com", some "k",
   [("custom-model", ⟨"custom-deploy", "", none⟩)]⟩

/-- Options whose endpoint is missing. -/
def optsNoEndpoint : HandlerOptions := ⟨none, none, some "k", []⟩

/-- Options whose key is missing. -/
def optsNoKey : HandlerOptions :=
  ⟨none, some "https://r.inference.azure.com", none, []⟩

/-- A 200 response whose choices array is empty. -/
def respEmptyChoices : RestResponse := ⟨200, ⟨[], none⟩⟩

/-- A 200 response with one choice carrying text. -/
def respWithText : RestResponse :=
  ⟨200, ⟨[⟨some ⟨some "test response"⟩⟩], none⟩⟩

/-- A malformed frame used in the tolerance witnesses: not the sentinel, and
its payload is not valid JSON. -/
def frameBad : String := "data: oops"

/-- The catalog default deployment: the default deployment of the default
model id, as azureAiModels records it. -/
def catalogDefaultDeployment : AzureDeploymentConfig :=
  ⟨"gpt-35-turbo", "2024-02-15-preview", none⟩

/-! Helper lemmas about the decoder. -/

lemma decodeFrame_eq (parse : String → Option ChatData) (raw : String) :
    decodeFrame parse raw =
      ((frameContentOpt parse raw).map StreamChunk.text).toList ++
      ((frameUsagePair parse raw).map (fun p => StreamChunk.usage p.1 p.2)).toList := by
  unfold decodeFrame frameContentOpt frameUsagePair
  cases hp : parse (replaceFirst raw "data: " "") with
  | none => rfl
  | some d =>
    cases hc : d.choices with
    | none => simp [hc]
    | some cs =>
      cases hcon : (cs.head?.bind Choice.delta).bind Delta.content with
      | none => cases hu : d.usage <;> simp [hc, hcon, hu]
      | some t =>
        by_cases ht : t = "" <;> cases hu : d.usage <;> simp [hc, hcon, hu, ht]

lemma decodeFrame_of_no_usage (parse : String → Option ChatData) (raw : String)
    (h : frameUsagePair parse raw = none) :
    decodeFrame parse raw = ((frameContentOpt parse raw).map StreamChunk.text).toList := by
  rw [decodeFrame_eq, h]
  simp

lemma textConcat_append (a b : List StreamChunk) :
    textConcat (a ++ b) = textConcat a ++ textConcat b := by
  induction a with
  | nil => simp [textConcat]
  | cons c cs ih =>
    cases c <;> simp [textConcat, ih, String.append_assoc]

lemma textConcat_decodeFrame (parse : String → Option ChatData) (raw : String) :
    textConcat (decodeFrame parse raw) = frameContent parse raw := by
  rw [decodeFrame_eq]
  unfold frameContent
  cases frameContentOpt parse raw <;> cases frameUsagePair parse raw <;>
    simp [textConcat, String.append_empty]

lemma dropLast_append_right (a : List StreamChunk) {b : List StreamChunk}
    (h : b ≠ []) : (a ++ b).dropLast = a ++ b.dropLast := by
  induction a with
  | nil => rfl
  | cons x xs ih =>
    have hxb : xs ++ b ≠ [] := by
      intro hh
      rcases List.append_eq_nil.mp hh with ⟨_, h2⟩
      exact h h2
    rw [List.cons_append, List.dropLast_cons_of_ne_nil hxb, ih, List.cons_append]

lemma decodeFrame_dropLast_no_usage (parse : String → Option ChatData)
    (raw : String) :
    (decodeFrame parse raw).dropLast.all (fun c => !(isUsage c)) = true := by
  rw [decodeFrame_eq]
  cases frameContentOpt parse raw <;> cases frameUsagePair parse raw <;>
    simp [isUsage, List.dropLast]

lemma countP_le_one_of_dropLast_all (l : List StreamChunk)
    (h : l.dropLast.all (fun c => !(isUsage c)) = true) :
    l.countP isUsage ≤ 1 := by
  induction l using List.reverseRecOn with
  | nil => simp
  | append_singleton as a _ =>
    rw [List.dropLast_concat] at h
    have hz : as.countP isUsage = 0 := by
      rw [List.countP_eq_zero]
      intro x hx
      have := List.all_eq_true.mp h x hx
      simpa using this
    rw [List.countP_append, hz, List.countP_cons]
    simp only [List.countP_nil]
    by_cases ha : isUsage a = true <;> simp [ha]

/-! Claim theorems. -/

/-- Claim C1, evaluated at its failing input: the createMessage read loop is
not chunking-invariant.  Delivering the framed byte sequence of frameHi whole
yields the text chunk Hi, while delivering the same bytes split into
single-character reads yields nothing, because the loop treats every read as a
complete frame and silently skips any read whose payload does not parse; the
two chunk sequences differ, against the claim that they are identical. -/
theorem c1_chunking_divergence_at_one_byte_reads :
    decodeReads exampleParse [frameHi] = [StreamChunk.text "Hi"] ∧
    decodeReads exampleParse (explode frameHi) = [] ∧
    decodeReads exampleParse (explode frameHi) ≠ decodeReads exampleParse [frameHi] := by
  decide

/-- Claim C8: a frame whose payload, after the data prefix is stripped, equals
the sentinel value terminates the chunk sequence: nothing after that frame is
ever decoded and the decoder returns its chunk list normally, raising no
error.  Stated over the decodeReads decoder for an arbitrary parse function
and arbitrary surrounding frames. -/
theorem c8_sentinel_terminates (parse : String → Option ChatData)
    (fs1 fs2 : List String) (payload : String) (h : payload = "[DONE]") :
    decodeReads parse (fs1 ++ ("data: " ++ payload) :: fs2) =
      decodeReads parse fs1 := by
  subst h
  have hs : "data: " ++ "[DONE]" = sentinelRead := rfl
  rw [hs]
  induction fs1 with
  | nil => simp [decodeReads]
  | cons f fs ih =>
    by_cases hf : f = sentinelRead
    · simp [decodeReads, hf]
    · simp [decodeReads, hf, ih]

/-- Witness for C8 at a concrete stream: the sentinel frame cuts off the later
frame. -/
theorem c8_sentinel_terminates_witness :
    ("[DONE]" : String) = "[DONE]" ∧
    decodeReads exampleParse ([frameHi] ++ ("data: " ++ "[DONE]") :: [frameWorld]) =
      decodeReads exampleParse [frameHi] :=
  ⟨rfl, c8_sentinel_terminates exampleParse [frameHi] [frameWorld] "[DONE]" rfl⟩

/-- Claim C5: a frame whose payload fails to parse is skipped without aborting
the stream: inserting one such frame anywhere between the other frames leaves
the emitted chunk sequence exactly equal to the sequence without it, so no
surrounding chunk is dropped or duplicated, and the decoder returns normally
rather than raising. -/
theorem c5_malformed_frame_tolerance (parse : String → Option ChatData)
    (fs1 fs2 : List String) (bad : String)
    (hbs : bad ≠ sentinelRead)
    (hbp : parse (replaceFirst bad "data: " "") = none) :
    decodeReads parse (fs1 ++ bad :: fs2) = decodeReads parse (fs1 ++ fs2) := by
  induction fs1 with
  | nil =>
    have hframe : decodeFrame parse bad = [] := by
      unfold decodeFrame
      rw [hbp]
    simp [decodeReads, if_neg hbs, hframe]
  | cons f fs ih =>
    by_cases hf : f = sentinelRead
    · simp [decodeReads, hf]
    · simp [decodeReads, hf, ih]

/-- Witness for C5 at a concrete stream: the invalid frameBad between two
valid frames changes nothing. -/
theorem c5_malformed_frame_tolerance_witness :
    (frameBad ≠ sentinelRead ∧
      exampleParse (replaceFirst frameBad "data: " "") = none) ∧
    decodeReads exampleParse ([frameHi] ++ frameBad :: [frameWorld]) =
      decodeReads exampleParse ([frameHi] ++ [frameWorld]) :=
  ⟨⟨by decide, by decide⟩,
   c5_malformed_frame_tolerance exampleParse [frameHi] [frameWorld] frameBad
     (by decide) (by decide)⟩

/-- Claim C7: content round-trip.  For every frame sequence (no frame being
the sentinel), the concatenation of the text of all emitted text chunks, in
emission order, equals the concatenation of the delta-content field of every
input frame, in frame order. -/
theorem c7_content_round_trip (parse : String → Option ChatData)
    (reads : List String) (h : ∀ r ∈ reads, r ≠ sentinelRead) :
    textConcat (decodeReads parse reads) =
      concatAll (reads.map (frameContent parse)) := by
  induction reads with
  | nil => rfl
  | cons r rs ih =>
    have hr : r ≠ sentinelRead := h r (List.mem_cons_self r rs)
    have hrs : ∀ x ∈ rs, x ≠ sentinelRead := fun x hx =>
      h x (List.mem_cons_of_mem r hx)
    simp only [decodeReads, if_neg hr, List.map_cons, concatAll]
    rw [textConcat_append, textConcat_decodeFrame, ih hrs]

/-- Witness for C7 at a concrete stream of two text frames and a usage
frame. -/
theorem c7_content_round_trip_witness :
    (∀ r ∈ [frameHi, frameWorld, frameUsage], r ≠ sentinelRead) ∧
    textConcat (decodeReads exampleParse [frameHi, frameWorld, frameUsage]) =
      concatAll ([frameHi, frameWorld, frameUsage].map (frameContent exampleParse)) :=
  ⟨by decide,
   c7_content_round_trip exampleParse [frameHi, frameWorld, frameUsage] (by decide)⟩

/-- Counterexample to claim C4 as stated: the loop copies a usage report out
of every frame that carries one, so a stream whose first frame reports usage
and whose second carries text emits a usage chunk that is not the last chunk
of the sequence. -/
theorem c4_counterexample_usage_not_last :
    decodeReads exampleParse [frameUsage, frameHi] =
      [StreamChunk.usage 10 2, StreamChunk.text "Hi"] ∧
    (decodeReads exampleParse [frameUsage, frameHi]).dropLast.any isUsage = true := by
  decide

/-- Claim C4 as amended: for every stream in which no read before the last
one reports usage (as conforming backends report final token counts only in
the final data frame), at most one usage chunk is emitted over the whole
sequence, and every chunk before the last one is not a usage chunk, so a
usage chunk, when present, is the last chunk. -/
theorem c4_usage_at_most_one_and_last (parse : String → Option ChatData)
    (reads : List String)
    (h : ∀ r ∈ reads.dropLast, frameUsagePair parse r = none) :
    (decodeReads parse reads).dropLast.all (fun c => !(isUsage c)) = true ∧
    (decodeReads parse reads).countP isUsage ≤ 1 := by
  have main : ∀ (rds : List String),
      (∀ r ∈ rds.dropLast, frameUsagePair parse r = none) →
      (decodeReads parse rds).dropLast.all (fun c => !(isUsage c)) = true := by
    intro rds
    induction rds with
    | nil => intro _; rfl
    | cons r rs ih =>
      intro h2
      by_cases hr : r = sentinelRead
      · simp [decodeReads, hr]
      · simp only [decodeReads, if_neg hr]
        cases hrs : rs with
        | nil =>
          simp only [decodeReads, List.append_nil]
          exact decodeFrame_dropLast_no_usage parse r
        | cons r2 rs2 =>
          have hrsne : rs ≠ [] := by rw [hrs]; exact List.cons_ne_nil r2 rs2
          have hdrop : (r :: rs).dropLast = r :: rs.dropLast :=
            List.dropLast_cons_of_ne_nil hrsne
          have hfr : frameUsagePair parse r = none := by
            apply h2
            rw [hdrop]
            exact List.mem_cons_self r rs.dropLast
          have hA : decodeFrame parse r =
              ((frameContentOpt parse r).map StreamChunk.text).toList :=
            decodeFrame_of_no_usage parse r hfr
          have hAall : ∀ c ∈ decodeFrame parse r, (!(isUsage c)) = true := by
            rw [hA]
            cases frameContentOpt parse r with
            | none => intro c hc; cases hc
            | some t =>
              intro c hc
              simp only [Option.map_some', Option.toList_some,
                List.mem_singleton] at hc
              subst hc
              rfl
          have hAallList : (decodeFrame parse r).all (fun c => !(isUsage c)) = true :=
            List.all_eq_true.mpr hAall
          have ihh : (decodeReads parse rs).dropLast.all
              (fun c => !(isUsage c)) = true := by
            apply ih
            intro x hx
            apply h2
            rw [hdrop]
            exact List.mem_cons_of_mem r hx
          rw [show decodeReads parse (r2 :: rs2) = decodeReads parse rs from by rw [hrs]]
          by_cases hb : decodeReads parse rs = []
          · rw [hb, List.append_nil]
            rw [List.all_eq_true]
            intro c hc
            exact hAall c ((List.dropLast_sublist _).subset hc)
          · rw [dropLast_append_right _ hb]
            simp [List.all_append, hAallList, ihh]
  have hmain := main reads h
  exact ⟨hmain, countP_le_one_of_dropLast_all _ hmain⟩

/-- Witness for the amended C4 at a concrete stream whose usage report sits in
the final frame. -/
theorem c4_usage_at_most_one_and_last_witness :
    (∀ r ∈ ([frameHi, frameUsage] : List String).dropLast,
      frameUsagePair exampleParse r = none) ∧
    (decodeReads exampleParse [frameHi, frameUsage]).dropLast.all
      (fun c => !(isUsage c)) = true ∧
    (decodeReads exampleParse [frameHi, frameUsage]).countP isUsage ≤ 1 :=
  ⟨by decide,
   (c4_usage_at_most_one_and_last exampleParse [frameHi, frameUsage] (by decide)).1,
   (c4_usage_at_most_one_and_last exampleParse [frameHi, frameUsage] (by decide)).2⟩

/-- Counterexample to claim C2 as stated: a backend failure that is not an
Error instance bypasses classification entirely, even when it carries status
429: the catch block rethrows it unchanged instead of producing the
rate-limited error. -/
theorem c2_counterexample_non_error_429 :
    rethrowCreateMessage (Thrown.rawVal (some 429) none "raw-failure-body") =
      Thrown.rawVal (some 429) none "raw-failure-body" ∧
    rethrowCompletePrompt (Thrown.rawVal (some 429) none "raw-failure-body") =
      Thrown.rawVal (some 429) none "raw-failure-body" ∧
    rethrowCreateMessage (Thrown.rawVal (some 429) none "raw-failure-body") ≠
      Thrown.errObj none none none rateLimitMessage := by
  decide

/-- Claim C2 as amended: for every backend failure that is an Error instance,
classification follows the fixed precedence, identically across the catch
blocks of createMessage, completePrompt, the first revision and the inference
revision: status 429 is checked first and always yields the one fixed
rate-limited error, regardless of the other fields; then a 400
content-safety signal yields the content-filtered error; a 422 yields the
request-validation error in the inference revision; and anything else yields
a fatal error preserving the original message behind the adapter prefix. -/
theorem c2_error_classification_precedence
    (status : Option Nat) (bodyCode bodyMsg : Option String) (message : String) :
    (status = some 429 →
      rethrowCreateMessage (Thrown.errObj status bodyCode bodyMsg message) =
          Thrown.errObj none none none rateLimitMessage ∧
      rethrowCompletePrompt (Thrown.errObj status bodyCode bodyMsg message) =
          Thrown.errObj none none none rateLimitMessage ∧
      rethrowBasic (Thrown.errObj status bodyCode bodyMsg message) =
          Thrown.errObj none none none rateLimitMessage ∧
      rethrowInference (Thrown.errObj status bodyCode bodyMsg message) =
          Thrown.errObj none none none rateLimitMessage) ∧
    (status = some 400 → bodyCode = some "ContentFilterError" →
      rethrowCreateMessage (Thrown.errObj status bodyCode bodyMsg message) =
          Thrown.errObj none none none contentFilterMessage ∧
      rethrowCompletePrompt (Thrown.errObj status bodyCode bodyMsg message) =
          Thrown.errObj none none none contentFilterMessage) ∧
    (status = some 422 →
      rethrowInference (Thrown.errObj status bodyCode bodyMsg message) =
          Thrown.errObj none none none
            ("Request validation failed: " ++ jsOrStr bodyMsg message)) ∧
    (status ≠ some 429 →
      ¬(status = some 400 ∧ bodyCode = some "ContentFilterError") →
      rethrowCreateMessage (Thrown.errObj status bodyCode bodyMsg message) =
          Thrown.errObj none none none ("Azure AI error: " ++ message)) := by
  refine ⟨?_, ?_, ?_, ?_⟩
  · intro h1
    subst h1
    simp [rethrowCreateMessage, rethrowCompletePrompt, rethrowBasic,
      rethrowInference, isUnexpectedStatus]
  · intro h1 h2
    subst h1
    subst h2
    simp [rethrowCreateMessage, rethrowCompletePrompt]
  · intro h1
    subst h1
    simp [rethrowInference, isUnexpectedStatus]
  · intro h1 h2
    simp only [rethrowCreateMessage]
    rw [if_neg h1, if_neg h2]

/-- Witness for the amended C2: a concrete Error instance with status 429
classifies as rate-limited even though it also carries a content-safety
code. -/
theorem c2_error_classification_witness :
    ((some 429 : Option Nat) = some 429) ∧
    rethrowCreateMessage
        (Thrown.errObj (some 429) (some "ContentFilterError") none "boom") =
      Thrown.errObj none none none rateLimitMessage :=
  ⟨rfl,
   ((c2_error_classification_precedence (some 429) (some "ContentFilterError")
       none "boom").1 rfl).1⟩

/-- Claim C3: deployment resolution obeys the three-level precedence.  In the
inference revision, for every model id: a truthy override is returned; with
no override the model id itself is the deployment name; with no model id at
all the result is exactly the catalog default deployment.  In the catalog
revision the same precedence holds for every catalog model id (its deployment
type only admits catalog ids): a truthy override wins, otherwise the catalog
default deployment of that id is used, whose name is the model id itself, and
with no model id and no overrides the result is the catalog default
deployment; the final conjunct ties catalogDefaultDeployment to the
azureAiModels entry of the default model id. -/
theorem c3_deployment_precedence (opts : HandlerOptions) (mid : String)
    (ov : DeploymentOverride) :
    (opts.apiModelId = some mid → mid ≠ "" →
      lookupDeployment opts mid = some ov →
      (getDeploymentConfigInference opts).name = ov.name) ∧
    (opts.apiModelId = some mid → mid ≠ "" →
      lookupDeployment opts mid = none →
      (getDeploymentConfigInference opts).name = mid) ∧
    (opts.apiModelId = none →
      getDeploymentConfigInference opts = catalogDefaultDeployment) ∧
    ((azureAiModels mid).isSome → opts.apiModelId = some mid → ov.name ≠ "" →
      lookupDeployment opts mid = some ov →
      (getDeploymentConfigCatalog opts).name = ov.name) ∧
    ((azureAiModels mid).isSome → opts.apiModelId = some mid →
      lookupDeployment opts mid = none →
      (getDeploymentConfigCatalog opts).name = mid) ∧
    (opts.apiModelId = none → opts.azureAiDeployments = [] →
      getDeploymentConfigCatalog opts = catalogDefaultDeployment) ∧
    (azureAiModels azureAiDefaultModelId).map AzureModelEntry.defaultDeployment =
      some catalogDefaultDeployment := by
  refine ⟨?_, ?_, ?_, ?_, ?_, ?_, ?_⟩
  · intro h1 h2 h3
    simp [getDeploymentConfigInference, h1, h2, h3]
  · intro h1 h2 h3
    simp [getDeploymentConfigInference, h1, h2, h3]
  · intro h1
    simp [getDeploymentConfigInference, h1, catalogDefaultDeployment,
      defaultApiVersionInference]
  · intro hm h1 hov hlk
    have hne : mid ≠ "" := by
      intro he
      rw [he] at hm
      simp [azureAiModels] at hm
    have hres : getModelResolvedId opts = mid := by
      simp [getModelResolvedId, h1, hne, hm]
    simp [getDeploymentConfigCatalog, hres, hlk, jsOrStr, hov]
  · intro hm h1 hlk
    have hne : mid ≠ "" := by
      intro he
      rw [he] at hm
      simp [azureAiModels] at hm
    have hres : getModelResolvedId opts = mid := by
      simp [getModelResolvedId, h1, hne, hm]
    have h3 : mid = "gpt-35-turbo" ∨ mid = "gpt-4" ∨ mid = "gpt-4-turbo" := by
      by_cases e1 : mid = "gpt-35-turbo"
      · exact Or.inl e1
      · by_cases e2 : mid = "gpt-4"
        · exact Or.inr (Or.inl e2)
        · by_cases e3 : mid = "gpt-4-turbo"
          · exact Or.inr (Or.inr e3)
          · exfalso
            simp [azureAiModels, e1, e2, e3] at hm
    rcases h3 with he | he | he <;> subst he <;>
      simp [getDeploymentConfigCatalog, getModelEntry, hres, hlk, jsOrStr,
        azureAiModels]
  · intro h1 h2
    simp [getDeploymentConfigCatalog, getModelEntry, getModelResolvedId,
      lookupDeployment, h1, h2, azureAiModels, azureAiDefaultModelId, jsOrStr,
      catalogDefaultDeployment]
  · simp [azureAiModels, azureAiDefaultModelId, catalogDefaultDeployment]

/-- Witness for C3 at concrete option records: override, no override, and no
model id, for both revisions, plus a non-catalog id in the inference
revision. -/
theorem c3_deployment_precedence_witness :
    (getDeploymentConfigInference optsOverride).name = "my-deploy" ∧
    (getDeploymentConfigInference optsCustom).name = "custom-deploy" ∧
    (getDeploymentConfigInference optsPlain).name = "gpt-4" ∧
    getDeploymentConfigInference optsNoModel = catalogDefaultDeployment ∧
    (getDeploymentConfigCatalog optsOverride).name = "my-deploy" ∧
    (getDeploymentConfigCatalog optsPlain).name = "gpt-4" ∧
    getDeploymentConfigCatalog optsNoModel = catalogDefaultDeployment :=
  ⟨(c3_deployment_precedence optsOverride "gpt-4" ovMyDeploy).1 (by decide)
      (by decide) (by decide),
   (c3_deployment_precedence optsCustom "custom-model"
       ⟨"custom-deploy", "", none⟩).1 (by decide) (by decide) (by decide),
   (c3_deployment_precedence optsPlain "gpt-4" ovMyDeploy).2.1 (by decide)
      (by decide) (by decide),
   (c3_deployment_precedence optsNoModel "gpt-4" ovMyDeploy).2.2.1 (by decide),
   (c3_deployment_precedence optsOverride "gpt-4" ovMyDeploy).2.2.2.1
      (by decide) (by decide) (by decide) (by decide),
   (c3_deployment_precedence optsPlain "gpt-4" ovMyDeploy).2.2.2.2.1
      (by decide) (by decide) (by decide),
   (c3_deployment_precedence optsNoModel "gpt-4" ovMyDeploy).2.2.2.2.2.1
      (by decide) (by decide)⟩

/-- Claim C6: the constructor validates mandatory configuration eagerly and
synchronously: a falsy endpoint makes construction return the endpoint
validation error (before anything else happens), a truthy endpoint with a
falsy key returns the key validation error, and with both present
construction succeeds.  An absent field and the empty string are equally
falsy, following the JavaScript truthiness the source uses. -/
theorem c6_constructor_validation (opts : HandlerOptions) :
    (strTruthy opts.azureAiEndpoint = false →
      mkAzureAiHandler opts = Except.error endpointRequiredMessage) ∧
    (strTruthy opts.azureAiEndpoint = true → strTruthy opts.azureAiKey = false →
      mkAzureAiHandler opts = Except.error keyRequiredMessage) ∧
    (strTruthy opts.azureAiEndpoint = true → strTruthy opts.azureAiKey = true →
      mkAzureAiHandler opts = Except.ok opts) := by
  refine ⟨?_, ?_, ?_⟩
  · intro h1
    simp [mkAzureAiHandler, h1]
  · intro h1 h2
    simp [mkAzureAiHandler, h1, h2]
  · intro h1 h2
    simp [mkAzureAiHandler, h1, h2]

/-- Witness for C6 at concrete option records: a missing endpoint fails, a
missing key fails, and both present succeeds. -/
theorem c6_constructor_validation_witness :
    (strTruthy optsNoEndpoint.azureAiEndpoint = false ∧
      mkAzureAiHandler optsNoEndpoint = Except.error endpointRequiredMessage) ∧
    (strTruthy optsNoKey.azureAiEndpoint = true ∧
      strTruthy optsNoKey.azureAiKey = false ∧
      mkAzureAiHandler optsNoKey = Except.error keyRequiredMessage) ∧
    mkAzureAiHandler optsPlain = Except.ok optsPlain :=
  ⟨⟨by decide, (c6_constructor_validation optsNoEndpoint).1 (by decide)⟩,
   ⟨by decide, by decide,
    (c6_constructor_validation optsNoKey).2.1 (by decide) (by decide)⟩,
   (c6_constructor_validation optsPlain).2.2 (by decide) (by decide)⟩

/-- Claim C9: on a success response, completePrompt always returns a string,
never an error: the empty string when the choices array is empty or when no
content is present, and the extracted text when a truthy content is
present. -/
theorem c9_complete_prompt_extraction (r : RestResponse) (t : String) :
    (r.status = 200 → ∃ s, completePromptResult r = Except.ok s) ∧
    (r.status = 200 → r.body.choices = [] →
      completePromptResult r = Except.ok "") ∧
    (r.status = 200 →
      (r.body.choices.head?.bind RespChoice.message).bind RespMessage.content =
        none →
      completePromptResult r = Except.ok "") ∧
    (r.status = 200 →
      (r.body.choices.head?.bind RespChoice.message).bind RespMessage.content =
        some t →
      t ≠ "" → completePromptResult r = Except.ok t) := by
  refine ⟨?_, ?_, ?_, ?_⟩
  · intro h1
    refine ⟨jsOrStr ((r.body.choices.head?.bind RespChoice.message).bind
      RespMessage.content) "", ?_⟩
    simp [completePromptResult, isUnexpectedResp, h1]
  · intro h1 h2
    simp [completePromptResult, isUnexpectedResp, h1, h2, jsOrStr]
  · intro h1 h2
    simp [completePromptResult, isUnexpectedResp, h1, h2, jsOrStr]
  · intro h1 h2 h3
    simp [completePromptResult, isUnexpectedResp, h1, h2, h3, jsOrStr]

/-- Witness for C9 at concrete responses: empty choices give the empty
string, a response with content gives that content. -/
theorem c9_complete_prompt_extraction_witness :
    respEmptyChoices.status = 200 ∧
    completePromptResult respEmptyChoices = Except.ok "" ∧
    completePromptResult respWithText = Except.ok "test response" :=
  ⟨rfl,
   (c9_complete_prompt_extraction respEmptyChoices "").2.1 rfl rfl,
   (c9_complete_prompt_extraction respWithText "test response").2.2.2 rfl
     (by decide) (by decide)⟩

/-- Claim C10: a failure value that is not an Error instance is rethrown by
every catch block exactly as it is, whatever status or body fields it
carries, so it bypasses the rate-limit and content-filter branches and gets
no adapter message; whereas every Error-instance failure is replaced by a
newly built Error whose message is one of the adapter's fixed classified
forms (the rate-limit message, the content-safety message, or the
adapter-prefixed original message). -/
theorem c10_non_error_rethrown_unchanged (status : Option Nat)
    (bodyCode : Option String) (payload : String) :
    rethrowCreateMessage (Thrown.rawVal status bodyCode payload) =
      Thrown.rawVal status bodyCode payload ∧
    rethrowCompletePrompt (Thrown.rawVal status bodyCode payload) =
      Thrown.rawVal status bodyCode payload ∧
    rethrowBasic (Thrown.rawVal status bodyCode payload) =
      Thrown.rawVal status bodyCode payload ∧
    rethrowInference (Thrown.rawVal status bodyCode payload) =
      Thrown.rawVal status bodyCode payload ∧
    (∀ st bc bm msg, ∃ m,
      rethrowCreateMessage (Thrown.errObj st bc bm msg) =
        Thrown.errObj none none none m ∧
      (m = rateLimitMessage ∨ m = contentFilterMessage ∨
        m = "Azure AI error: " ++ msg)) ∧
    (∀ st bc bm msg, ∃ m,
      rethrowCompletePrompt (Thrown.errObj st bc bm msg) =
        Thrown.errObj none none none m ∧
      (m = rateLimitMessage ∨ m = contentFilterMessage ∨
        m = "Azure AI completion error: " ++ msg)) := by
  refine ⟨rfl, rfl, rfl, rfl, ?_, ?_⟩
  · intro st bc bm msg
    simp only [rethrowCreateMessage]
    by_cases h1 : st = some 429
    · rw [if_pos h1]
      exact ⟨rateLimitMessage, rfl, Or.inl rfl⟩
    · rw [if_neg h1]
      by_cases h2 : st = some 400 ∧ bc = some "ContentFilterError"
      · rw [if_pos h2]
        exact ⟨contentFilterMessage, rfl, Or.inr (Or.inl rfl)⟩
      · rw [if_neg h2]
        exact ⟨_, rfl, Or.inr (Or.inr rfl)⟩
  · intro st bc bm msg
    simp only [rethrowCompletePrompt]
    by_cases h1 : st = some 429
    · rw [if_pos h1]
      exact ⟨rateLimitMessage, rfl, Or.inl rfl⟩
    · rw [if_neg h1]
      by_cases h2 : st = some 400 ∧ bc = some "ContentFilterError"
      · rw [if_pos h2]
        exact ⟨contentFilterMessage, rfl, Or.inr (Or.inl rfl)⟩
      · rw [if_neg h2]
        exact ⟨_, rfl, Or.inr (Or.inr rfl)⟩

end AzureAi
